import Mathlib

/-!
Verification of the EveLastLoss utility (eve_last_loss.py).

The Python module is embedded shallowly:
  * JSON records become structures (KillSummary, Victim, KillDetail, ShipInfo).
  * The remote ESI endpoints, the wall clock and the dateutil timestamp
    parser are external collaborators; they are passed in as explicit
    parameters (RemoteAPI, now, parse).  A raised exception becomes an
    Except.error carrying the exception message, so the try/except blocks
    of the Python code become explicit match-and-propagate.
  * datetime.timedelta is modelled at second granularity: the normalised
    pair (days, seconds) with days floored and 0 <= seconds < 86400,
    exactly the Python normalisation for negative totals.
  * The builtin int() conversion used by EveOnlineAPI.__init__ is modelled
    on ASCII input: surrounding whitespace stripped, an optional sign,
    then a nonempty run of decimal digits with single underscores allowed
    between digits; anything else raises ValueError.
-/

/-- Model of a killmail summary returned by the recent-killmails endpoint. -/
structure KillSummary where
  killmail_id : Int
  killmail_hash : String
  deriving DecidableEq

/-- Model of the victim record inside a killmail detail.  The optional
ship_type_id models presence or absence of the JSON key. -/
structure Victim where
  character_id : Int
  ship_type_id : Option Int
  deriving DecidableEq

/-- Model of a killmail detail returned by the killmail-detail endpoint. -/
structure KillDetail where
  killmail_time : String
  victim : Victim
  deriving DecidableEq

/-- Model of the ship-type record returned by the universe-types endpoint. -/
structure ShipInfo where
  name : String
  deriving DecidableEq

/-- The three remote ESI endpoints the client consumes, as abstract fallible
functions.  An Except.error models a raised exception (transport failure or
non-2xx status surfaced by _make_request). -/
structure RemoteAPI where
  recent_killmails : Int → Except String (List KillSummary)
  killmail_details : Int → String → Except String KillDetail
  ship_info : Int → Except String ShipInfo

/-- A Python value that is either a string or an integer, the two ways a
character id may be supplied to the constructor. -/
inductive PyStrOrInt where
  | str (s : String)
  | int (n : Int)
  deriving DecidableEq

/-- Whitespace characters stripped by the Python str.strip step of int(),
restricted to ASCII. -/
def isPySpace (c : Char) : Bool :=
  c == ' ' || c == '\t' || c == '\n' || c == '\r' || c == '\x0b' || c == '\x0c'

/-- Strip leading and trailing whitespace, as int() does on string input. -/
def stripSpaces (cs : List Char) : List Char :=
  ((cs.dropWhile isPySpace).reverse.dropWhile isPySpace).reverse

/-- Numeric value of an ASCII digit character. -/
def digitVal (c : Char) : Nat := c.toNat - 48

/-- Consume the remainder of a decimal digit run, allowing a single
underscore between two digits as Python int() does. -/
def parseDigitsRest (acc : Nat) : List Char → Option Nat
  | [] => some acc
  | c :: cs =>
    if c == '_' then
      match cs with
      | c2 :: cs2 =>
        if c2.isDigit then parseDigitsRest (10 * acc + digitVal c2) cs2 else none
      | [] => none
    else if c.isDigit then parseDigitsRest (10 * acc + digitVal c) cs else none

/-- Consume a nonempty decimal digit run (the digitpart of the Python
integer literal grammar). -/
def parseDigitpart : List Char → Option Nat
  | [] => none
  | c :: cs => if c.isDigit then parseDigitsRest (digitVal c) cs else none

/-- Model of the Python builtin int() applied to a string: strip
whitespace, read an optional sign and a digit run; raise ValueError
otherwise. -/
def python_int_of_string (s : String) : Except String Int :=
  match stripSpaces s.toList with
  | [] => .error ("invalid literal for int() with base 10: " ++ s)
  | c :: rest =>
    let body := if c == '-' || c == '+' then rest else c :: rest
    match parseDigitpart body with
    | some n => .ok (if c == '-' then -(n : Int) else (n : Int))
    | none => .error ("invalid literal for int() with base 10: " ++ s)

/-- Model of the Python builtin int() on a value that is either a string
or already an integer. -/
def python_int : PyStrOrInt → Except String Int
  | .int n => .ok n
  | .str s => python_int_of_string s

/-- ASCII character of a decimal digit. -/
def digitChar (d : Nat) : Char := Char.ofNat (48 + d)

/-- Canonical decimal string of a natural number, built from its base-10
digit expansion (most significant digit first). -/
def natDecimal (n : Nat) : String :=
  if n = 0 then "0" else ⟨(Nat.digits 10 n).reverse.map digitChar⟩

/-- Canonical decimal string of an integer, with a leading minus sign for
negative values. -/
def intDecimal (n : Int) : String :=
  if n < 0 then "-" ++ natDecimal n.natAbs else natDecimal n.natAbs

/-- The state EveOnlineAPI.__init__ stores: the access token, the
character id normalised through int(), and the request headers. -/
structure EveOnlineAPI where
  access_token : String
  character_id : Int
  headers : List (String × String)
  deriving DecidableEq

/-- Model of EveOnlineAPI.__init__: normalises the character id with
int(), which may raise, and builds the headers. -/
def EveOnlineAPI.init (access_token : String) (character_id : PyStrOrInt) :
    Except String EveOnlineAPI :=
  match python_int character_id with
  | .error e => .error e
  | .ok cid =>
    .ok { access_token := access_token
          character_id := cid
          headers := [("Authorization", "Bearer " ++ access_token),
                      ("Content-Type", "application/json")] }

/-- Model of get_recent_killmails: a GET on the recent-killmails endpoint
for the stored character id. -/
def get_recent_killmails (remote : RemoteAPI) (api : EveOnlineAPI) :
    Except String (List KillSummary) :=
  remote.recent_killmails api.character_id

/-- Model of get_killmail_details: a GET on the killmail-detail endpoint. -/
def get_killmail_details (remote : RemoteAPI) (kill_id : Int) (kill_hash : String) :
    Except String KillDetail :=
  remote.killmail_details kill_id kill_hash

/-- Model of get_ship_info: a GET on the universe-types endpoint. -/
def get_ship_info (remote : RemoteAPI) (ship_type_id : Int) :
    Except String ShipInfo :=
  remote.ship_info ship_type_id

/-- Model of filter_character_losses: fetch the detail of each summary in
order, keep the details whose victim character id equals the stored one;
the first failing fetch aborts the whole pass. -/
def filter_character_losses (remote : RemoteAPI) (api : EveOnlineAPI) :
    List KillSummary → Except String (List KillDetail)
  | [] => .ok []
  | kill :: rest =>
    match get_killmail_details remote kill.killmail_id kill.killmail_hash with
    | .error e => .error e
    | .ok kill_detail =>
      match filter_character_losses remote api rest with
      | .error e => .error e
      | .ok losses =>
        if kill_detail.victim.character_id == api.character_id then
          .ok (kill_detail :: losses)
        else
          .ok losses

/-- Model of the Python max(losses, key=...) scan: keep the current best
element and its key, replace it whenever a strictly larger key appears, so
the first of several maximal elements wins; a key evaluation failure (a
timestamp the parser rejects) aborts the scan. -/
def max_by_time (parse : String → Except String Int) (best : KillDetail)
    (bestVal : Int) : List KillDetail → Except String KillDetail
  | [] => .ok best
  | x :: xs =>
    match parse x.killmail_time with
    | .error e => .error e
    | .ok v =>
      if bestVal < v then max_by_time parse x v xs
      else max_by_time parse best bestVal xs

/-- Model of find_most_recent_loss: none on an empty list, otherwise the
max of the list keyed by the parsed killmail_time. -/
def find_most_recent_loss (parse : String → Except String Int) :
    List KillDetail → Except String (Option KillDetail)
  | [] => .ok none
  | l :: ls =>
    match parse l.killmail_time with
    | .error e => .error e
    | .ok v =>
      match max_by_time parse l v ls with
      | .error e => .error e
      | .ok m => .ok (some m)

/-- Model of datetime.timedelta restricted to second granularity: days may
be negative, seconds is the normalised non-negative remainder. -/
structure timedelta where
  days : Int
  seconds : Nat
  deriving DecidableEq

/-- Build a timedelta from a total number of seconds, with the Python
normalisation: days is the floored quotient by 86400 and seconds the
non-negative remainder. -/
def timedelta.ofSeconds (total : Int) : timedelta :=
  { days := Int.fdiv total 86400
    seconds := (Int.fmod total 86400).toNat }

/-- Model of format_time_difference: decompose the delta and append the
day, hour and minute segments when strictly positive, then always the
seconds segment. -/
def format_time_difference (time_diff : timedelta) : String :=
  let days := time_diff.days
  let hours := time_diff.seconds / 3600
  let remainder := time_diff.seconds % 3600
  let minutes := remainder / 60
  let seconds := remainder % 60
  let result := "Time since last ship loss: "
  let result := if days > 0 then
      result ++ toString days ++ " day" ++ (if days != 1 then "s" else "") ++ ", "
    else result
  let result := if hours > 0 then
      result ++ toString hours ++ " hour" ++ (if hours != 1 then "s" else "") ++ ", "
    else result
  let result := if minutes > 0 then
      result ++ toString minutes ++ " minute" ++ (if minutes != 1 then "s" else "") ++ ", "
    else result
  result ++ toString seconds ++ " second" ++ (if seconds != 1 then "s" else "")

/-- The duration format as the specification words it: the prefix, then
for each of days, hours and minutes a segment emitted exactly when the
value is nonzero, then always the seconds segment; a unit is singular
exactly when its value equals one. -/
def spec_format_time_difference (time_diff : timedelta) : String :=
  let days := time_diff.days
  let hours := time_diff.seconds / 3600
  let remainder := time_diff.seconds % 3600
  let minutes := remainder / 60
  let seconds := remainder % 60
  "Time since last ship loss: "
    ++ (if days ≠ 0 then
          toString days ++ " day" ++ (if days = 1 then "" else "s") ++ ", "
        else "")
    ++ (if hours ≠ 0 then
          toString hours ++ " hour" ++ (if hours = 1 then "" else "s") ++ ", "
        else "")
    ++ (if minutes ≠ 0 then
          toString minutes ++ " minute" ++ (if minutes = 1 then "" else "s") ++ ", "
        else "")
    ++ toString seconds ++ " second" ++ (if seconds = 1 then "" else "s")

/-- The body of the try block of get_time_since_last_ship_loss, with every
exception surfaced as an Except.error: fetch the summaries, filter to
losses, short-circuit when empty, select the most recent loss, format the
delta between now and its parsed time, and best-effort append the ship
name, swallowing any failure of that last fetch. -/
def report_pipeline (remote : RemoteAPI) (parse : String → Except String Int)
    (now : Int) (api : EveOnlineAPI) : Except String String :=
  match get_recent_killmails remote api with
  | .error e => .error e
  | .ok killmails =>
    match filter_character_losses remote api killmails with
    | .error e => .error e
    | .ok losses =>
      if losses.isEmpty then .ok "No ship losses found for this character."
      else
        match find_most_recent_loss parse losses with
        | .error e => .error e
        | .ok none => .error "TypeError: NoneType object is not subscriptable"
        | .ok (some most_recent_loss) =>
          match parse most_recent_loss.killmail_time with
          | .error e => .error e
          | .ok loss_time =>
            let time_diff := timedelta.ofSeconds (now - loss_time)
            let result := format_time_difference time_diff
            match most_recent_loss.victim.ship_type_id with
            | none => .ok result
            | some ship_type_id =>
              match get_ship_info remote ship_type_id with
              | .ok ship_info => .ok (result ++ "\nLost ship: " ++ ship_info.name)
              | .error _ => .ok result

/-- Model of get_time_since_last_ship_loss: the pipeline wrapped in the
top-level except clause that turns any exception into the error report. -/
def get_time_since_last_ship_loss (remote : RemoteAPI)
    (parse : String → Except String Int) (now : Int) (api : EveOnlineAPI) : String :=
  match report_pipeline remote parse now api with
  | .ok result => result
  | .error e => "An unexpected error occurred: " ++ e

/-- Observable outcome of running the command-line entry point: the usage
line with an exit code, a report printed to standard output, or an
uncaught exception escaping main. -/
inductive MainResult where
  | usage (line : String) (exitCode : Nat)
  | report (out : String)
  | uncaught (msg : String)
  deriving DecidableEq

/-- True exactly on the outcome that prints a report to standard output. -/
def MainResult.isReport : MainResult → Bool
  | .report _ => true
  | _ => false

/-- Model of the main function, named main_entry because Lean reserves the name main for IO programs: with other than three argv entries print the usage line
and exit 1; otherwise build the client from the two arguments, which may
raise an uncaught ValueError, and print the report. -/
def main_entry (remote : RemoteAPI) (parse : String → Except String Int) (now : Int)
    (argv : List String) : MainResult :=
  if argv.length ≠ 3 then
    .usage "Usage: python eve_last_loss.py <access_token> <character_id>" 1
  else
    let access_token := argv[1]!
    let character_id := argv[2]!
    match EveOnlineAPI.init access_token (.str character_id) with
    | .error e => .uncaught e
    | .ok eve_api => .report (get_time_since_last_ship_loss remote parse now eve_api)

/-- A demonstration killmail detail whose victim is character 12345 flying
ship type 456, used to instantiate the theorems below. -/
def demoLossDetail : KillDetail :=
  { killmail_time := "2023-01-05T12:00:00Z"
    victim := { character_id := 12345, ship_type_id := some 456 } }

/-- A demonstration killmail detail whose victim is a different character. -/
def demoOtherDetail : KillDetail :=
  { killmail_time := "2023-01-06T12:00:00Z"
    victim := { character_id := 67890, ship_type_id := none } }

/-- A demonstration client state for character 12345, as built by the
constructor. -/
def demoApi : EveOnlineAPI :=
  { access_token := "tok"
    character_id := 12345
    headers := [("Authorization", "Bearer tok"), ("Content-Type", "application/json")] }

/-- A demonstration client state for character 99999, who has no losses in
the demonstration data. -/
def demoApiOther : EveOnlineAPI :=
  { access_token := "tok"
    character_id := 99999
    headers := [("Authorization", "Bearer tok"), ("Content-Type", "application/json")] }

/-- A demonstration remote endpoint table: two recent killmails, kill 123
suffered by character 12345 and kill 456 suffered by character 67890, and
a ship-info table naming every type Rifter. -/
def demoRemote : RemoteAPI :=
  { recent_killmails := fun _ => .ok [⟨123, "abc123"⟩, ⟨456, "def456"⟩]
    killmail_details := fun kid _ =>
      if kid == 123 then .ok demoLossDetail else .ok demoOtherDetail
    ship_info := fun _ => .ok ⟨"Rifter"⟩ }

/-- A demonstration remote endpoint table on which every request fails. -/
def demoRemoteDown : RemoteAPI :=
  { recent_killmails := fun _ => .error "Error accessing EVE Online API: 500 Server Error"
    killmail_details := fun _ _ => .error "Error accessing EVE Online API: 500 Server Error"
    ship_info := fun _ => .error "Error accessing EVE Online API: 500 Server Error" }

/-- A demonstration remote endpoint table identical to demoRemote except
that the ship-info endpoint fails. -/
def demoRemoteNoShip : RemoteAPI :=
  { recent_killmails := fun _ => .ok [⟨123, "abc123"⟩, ⟨456, "def456"⟩]
    killmail_details := fun kid _ =>
      if kid == 123 then .ok demoLossDetail else .ok demoOtherDetail
    ship_info := fun _ => .error "Error accessing EVE Online API: 404 Not Found" }

/-- A demonstration timestamp parser mapping the two timestamps of the
demonstration data to epoch seconds and rejecting every other string. -/
def demoParse : String → Except String Int := fun s =>
  if s == "2023-01-05T12:00:00Z" then .ok 1672920000
  else if s == "2023-01-06T12:00:00Z" then .ok 1673006400
  else .error ("Unknown string format: " ++ s)

/-- The key function realised by demoParse on the demonstration details. -/
def demoKey (d : KillDetail) : Int :=
  if d.killmail_time == "2023-01-05T12:00:00Z" then 1672920000 else 1673006400

/-! Helper lemmas. -/

/-- Segments governed by a non-positive day count are skipped, so two
deltas differing only in a non-positive days field format identically. -/
theorem format_eq_of_days_nonpos {d d' : Int} (hd : d ≤ 0) (hd' : d' ≤ 0) (s : Nat) :
    format_time_difference ⟨d, s⟩ = format_time_difference ⟨d', s⟩ := by
  have h1 : ¬(d > 0) := by omega
  have h2 : ¬(d' > 0) := by omega
  simp only [format_time_difference, h1, h2, if_false]

/-- A conditional append of a suffix factors into an append of a
conditional suffix. -/
theorem ite_append_right {p : Prop} [Decidable p] (r s : String) :
    (if p then r ++ s else r) = r ++ (if p then s else "") := by
  split <;> simp

/-- Under a non-negative day count, the day segment guarded by strict
positivity coincides with the segment the spec words by nonzeroness and
the singular-exactly-at-one rule. -/
theorem day_segment_eq {d : Int} (h : 0 ≤ d) :
    (if d > 0 then toString d ++ (" day" ++ ((if d != 1 then "s" else "") ++ ", ")) else "") =
    (if d ≠ 0 then toString d ++ (" day" ++ ((if d = 1 then "" else "s") ++ ", ")) else "") := by
  by_cases h0 : d = 0
  · simp [h0]
  · have hgt : d > 0 := by omega
    rw [if_pos hgt, if_pos h0]
    by_cases h1 : d = 1 <;> simp [h1]

/-- For a natural count, the segment guarded by strict positivity
coincides with the segment the spec words by nonzeroness and the
singular-exactly-at-one rule. -/
theorem nat_segment_eq (n : Nat) (u : String) :
    (if n > 0 then toString n ++ (u ++ ((if n != 1 then "s" else "") ++ ", ")) else "") =
    (if n ≠ 0 then toString n ++ (u ++ ((if n = 1 then "" else "s") ++ ", ")) else "") := by
  by_cases h0 : n = 0
  · simp [h0]
  · rw [if_pos (by omega), if_pos h0]
    by_cases h1 : n = 1 <;> simp [h1]

/-- The two spellings of the pluralisation guard agree. -/
theorem plural_guard_eq (n : Nat) :
    (if n != 1 then "s" else "") = (if n = 1 then "" else "s") := by
  by_cases h1 : n = 1 <;> simp [h1]

/-! Theorems for the frozen claims. -/

/-- C2: for every non-negative time delta, format_time_difference emits
the literal prefix, then the days, hours and minutes segments each exactly
when the value is nonzero (with a trailing comma-space), then always the
seconds segment, every unit singular exactly when its value is one; and on
the delta of zero days and five seconds the output is exactly the string
Time since last ship loss: 5 seconds. -/
theorem format_time_difference_matches_spec (td : timedelta) (h : 0 ≤ td.days) :
    format_time_difference td = spec_format_time_difference td ∧
    format_time_difference ⟨0, 5⟩ = "Time since last ship loss: 5 seconds" := by
  refine ⟨?_, by decide⟩
  obtain ⟨d, s⟩ := td
  simp only at h
  simp only [format_time_difference, spec_format_time_difference, String.append_assoc]
  rw [ite_append_right, ite_append_right, ite_append_right]
  simp only [String.append_assoc]
  rw [day_segment_eq h, nat_segment_eq, nat_segment_eq, plural_guard_eq]

/-- C2 witness: the theorem applied to the delta of two days, three hours,
forty-five minutes and thirty seconds. -/
theorem format_time_difference_matches_spec_witness :
    format_time_difference ⟨2, 13530⟩ =
      "Time since last ship loss: 2 days, 3 hours, 45 minutes, 30 seconds" := by
  have h := (format_time_difference_matches_spec ⟨2, 13530⟩ (by decide)).1
  exact h.trans (by decide)

/-- C9: a negative delta strictly between minus one day and zero is
normalised to days equal to minus one with the non-negative remainder
delta plus 86400 seconds; the days segment is omitted because minus one is
not greater than zero, so the output reports exactly the normalised
hours, minutes and seconds; in particular a delta of minus one second
formats as Time since last ship loss: 23 hours, 59 minutes, 59 seconds. -/
theorem format_negative_delta_normalization (t : Int) (h1 : -86400 < t) (h2 : t < 0) :
    (timedelta.ofSeconds t).days = -1 ∧
    (timedelta.ofSeconds t).seconds = (t + 86400).toNat ∧
    format_time_difference (timedelta.ofSeconds t) =
      format_time_difference ⟨0, (t + 86400).toNat⟩ ∧
    format_time_difference (timedelta.ofSeconds (-1)) =
      "Time since last ship loss: 23 hours, 59 minutes, 59 seconds" := by
  have hdays : Int.fdiv t 86400 = -1 := by
    rw [Int.fdiv_eq_ediv _ (by norm_num)]
    omega
  have hsec : (Int.fmod t 86400).toNat = (t + 86400).toNat := by
    rw [Int.fmod_eq_emod _ (by norm_num)]
    omega
  have hmk : timedelta.ofSeconds t = ⟨-1, (t + 86400).toNat⟩ := by
    unfold timedelta.ofSeconds
    rw [timedelta.mk.injEq]
    exact ⟨hdays, hsec⟩
  refine ⟨?_, ?_, ?_, by decide⟩
  · rw [hmk]
  · rw [hmk]
  · rw [hmk]
    exact format_eq_of_days_nonpos (by omega) (by omega) _

/-- C9 witness: the theorem applied to the delta of minus one second. -/
theorem format_negative_delta_normalization_witness :
    (timedelta.ofSeconds (-1)).days = -1 ∧
    format_time_difference (timedelta.ofSeconds (-1)) =
      "Time since last ship loss: 23 hours, 59 minutes, 59 seconds" :=
  ⟨(format_negative_delta_normalization (-1) (by decide) (by decide)).1,
   (format_negative_delta_normalization (-1) (by decide) (by decide)).2.2.2⟩

/-- The max-by-key scan returns an element among the initial best and the
scanned list whose key bounds every key, provided the key parses on every
scanned element. -/
theorem max_by_time_spec (parse : String → Except String Int) (f : KillDetail → Int) :
    ∀ (rest : List KillDetail) (best : KillDetail),
    (∀ l ∈ rest, parse l.killmail_time = .ok (f l)) →
    ∃ m, max_by_time parse best (f best) rest = .ok m ∧
      (m = best ∨ m ∈ rest) ∧ f best ≤ f m ∧ ∀ y ∈ rest, f y ≤ f m := by
  intro rest
  induction rest with
  | nil =>
    intro best _
    exact ⟨best, rfl, Or.inl rfl, le_refl _, by simp⟩
  | cons x xs ih =>
    intro best h
    have hx : parse x.killmail_time = .ok (f x) := h x (by simp)
    have hxs : ∀ l ∈ xs, parse l.killmail_time = .ok (f l) :=
      fun l hl => h l (by simp [hl])
    by_cases hlt : f best < f x
    · obtain ⟨m, hm, hmem, hle, hall⟩ := ih x hxs
      refine ⟨m, ?_, ?_, ?_, ?_⟩
      · simp only [max_by_time, hx, if_pos hlt]
        exact hm
      · rcases hmem with h' | h'
        · exact Or.inr (by simp [h'])
        · exact Or.inr (by simp [h'])
      · exact le_trans (le_of_lt hlt) hle
      · intro y hy
        rcases List.mem_cons.mp hy with h' | h'
        · exact h' ▸ hle
        · exact hall y h'
    · obtain ⟨m, hm, hmem, hle, hall⟩ := ih best hxs
      refine ⟨m, ?_, ?_, hle, ?_⟩
      · simp only [max_by_time, hx, if_neg hlt]
        exact hm
      · rcases hmem with h' | h'
        · exact Or.inl h'
        · exact Or.inr (by simp [h'])
      · intro y hy
        rcases List.mem_cons.mp hy with h' | h'
        · exact h' ▸ le_trans (not_lt.mp hlt) hle
        · exact hall y h'

/-- C1: on the empty sequence of Losses find_most_recent_loss returns
none, and on a non-empty sequence whose timestamps all parse it returns an
element of the sequence whose parsed killmail_time is maximal. -/
theorem find_most_recent_loss_max (parse : String → Except String Int)
    (f : KillDetail → Int) (losses : List KillDetail)
    (h : ∀ l ∈ losses, parse l.killmail_time = .ok (f l)) :
    (losses = [] → find_most_recent_loss parse losses = .ok none) ∧
    (losses ≠ [] → ∃ m, find_most_recent_loss parse losses = .ok (some m) ∧
      m ∈ losses ∧ ∀ y ∈ losses, f y ≤ f m) := by
  cases losses with
  | nil => exact ⟨fun _ => rfl, fun hne => absurd rfl hne⟩
  | cons l ls =>
    refine ⟨fun hc => by simp at hc, fun _ => ?_⟩
    have hl : parse l.killmail_time = .ok (f l) := h l (by simp)
    have hls : ∀ x ∈ ls, parse x.killmail_time = .ok (f x) :=
      fun x hx => h x (by simp [hx])
    obtain ⟨m, hm, hmem, hle, hall⟩ := max_by_time_spec parse f ls l hls
    refine ⟨m, ?_, ?_, ?_⟩
    · simp only [find_most_recent_loss, hl, hm]
    · rcases hmem with h' | h'
      · simp [h']
      · simp [h']
    · intro y hy
      rcases List.mem_cons.mp hy with h' | h'
      · exact h' ▸ hle
      · exact hall y h'

/-- C1 witness: the theorem applied to the empty list and to the two
demonstration losses, on which the scan returns the later loss. -/
theorem find_most_recent_loss_max_witness :
    find_most_recent_loss demoParse [] = .ok none ∧
    find_most_recent_loss demoParse [demoLossDetail, demoOtherDetail] =
      .ok (some demoOtherDetail) := by
  constructor
  · exact (find_most_recent_loss_max demoParse (fun _ => 0) [] (by simp)).1 rfl
  · obtain ⟨m, hm, hmem, hall⟩ :=
      (find_most_recent_loss_max demoParse demoKey [demoLossDetail, demoOtherDetail]
        (by intro l hl; fin_cases hl <;> rfl)).2 (by simp)
    have hmeq : (Except.ok (some m) : Except String (Option KillDetail)) =
        .ok (some demoOtherDetail) := by
      rw [← hm]
      rfl
    exact hm.trans hmeq

/-- C3: when every detail fetch succeeds, filter_character_losses returns
exactly the fetched details whose victim character id equals the stored
character id, in input order. -/
theorem filter_character_losses_keeps_victim_matches (remote : RemoteAPI)
    (api : EveOnlineAPI) (killmails : List KillSummary)
    (details : KillSummary → KillDetail)
    (h : ∀ k ∈ killmails,
      remote.killmail_details k.killmail_id k.killmail_hash = .ok (details k)) :
    filter_character_losses remote api killmails =
      .ok ((killmails.map details).filter
        (fun d => d.victim.character_id == api.character_id)) := by
  induction killmails with
  | nil => rfl
  | cons kill rest ih =>
    have hk := h kill (by simp)
    have hrest : ∀ k ∈ rest,
        remote.killmail_details k.killmail_id k.killmail_hash = .ok (details k) :=
      fun k hk2 => h k (by simp [hk2])
    simp only [filter_character_losses, get_killmail_details, hk, ih hrest,
      List.map_cons, List.filter_cons]
    by_cases hc : (details kill).victim.character_id == api.character_id <;>
      simp [hc]

/-- C3 witness: the theorem applied to the demonstration data, where only
the first of the two killmails is a loss of character 12345. -/
theorem filter_character_losses_keeps_victim_matches_witness :
    filter_character_losses demoRemote demoApi [⟨123, "abc123"⟩, ⟨456, "def456"⟩] =
      .ok [demoLossDetail] := by
  have h := filter_character_losses_keeps_victim_matches demoRemote demoApi
    [⟨123, "abc123"⟩, ⟨456, "def456"⟩]
    (fun k => if k.killmail_id == 123 then demoLossDetail else demoOtherDetail)
    (by intro k hk; fin_cases hk <;> rfl)
  exact h.trans (by rfl)

/-- C4: a failure of the summary fetch, of any per-summary detail fetch,
of the most-recent selection, or of the timestamp parse feeding the
formatting step is caught at the top level and surfaced as the error
report carrying that message, with no partial report. -/
theorem get_time_error_report_on_failure (remote : RemoteAPI)
    (parse : String → Except String Int) (now : Int) (api : EveOnlineAPI) :
    (∀ e, remote.recent_killmails api.character_id = .error e →
      get_time_since_last_ship_loss remote parse now api =
        "An unexpected error occurred: " ++ e) ∧
    (∀ kms e, remote.recent_killmails api.character_id = .ok kms →
      filter_character_losses remote api kms = .error e →
      get_time_since_last_ship_loss remote parse now api =
        "An unexpected error occurred: " ++ e) ∧
    (∀ kms losses e, remote.recent_killmails api.character_id = .ok kms →
      filter_character_losses remote api kms = .ok losses →
      losses.isEmpty = false →
      find_most_recent_loss parse losses = .error e →
      get_time_since_last_ship_loss remote parse now api =
        "An unexpected error occurred: " ++ e) ∧
    (∀ kms losses mr e, remote.recent_killmails api.character_id = .ok kms →
      filter_character_losses remote api kms = .ok losses →
      losses.isEmpty = false →
      find_most_recent_loss parse losses = .ok (some mr) →
      parse mr.killmail_time = .error e →
      get_time_since_last_ship_loss remote parse now api =
        "An unexpected error occurred: " ++ e) := by
  refine ⟨?_, ?_, ?_, ?_⟩
  · intro e he
    simp only [get_time_since_last_ship_loss, report_pipeline, get_recent_killmails, he]
  · intro kms e h1 h2
    simp only [get_time_since_last_ship_loss, report_pipeline, get_recent_killmails,
      h1, h2]
  · intro kms losses e h1 h2 h3 h4
    simp only [get_time_since_last_ship_loss, report_pipeline, get_recent_killmails,
      h1, h2, h3, h4, Bool.false_eq_true, if_false]
  · intro kms losses mr e h1 h2 h3 h4 h5
    simp only [get_time_since_last_ship_loss, report_pipeline, get_recent_killmails,
      h1, h2, h3, h4, h5, Bool.false_eq_true, if_false]

/-- C4 witness: the theorem applied to the demonstration environment whose
recent-killmails fetch fails with a server error. -/
theorem get_time_error_report_on_failure_witness :
    get_time_since_last_ship_loss demoRemoteDown demoParse 0 demoApi =
      "An unexpected error occurred: Error accessing EVE Online API: 500 Server Error" := by
  have h := (get_time_error_report_on_failure demoRemoteDown demoParse 0 demoApi).1
    "Error accessing EVE Online API: 500 Server Error" rfl
  exact h.trans (by rfl)

/-- C5: when the most recent Loss carries a ship_type_id, a successful
ship-info fetch appends a newline and the Lost ship line to the formatted
duration, and a failed ship-info fetch is swallowed: the report is exactly
the formatted duration, not an error message. -/
theorem ship_name_enrichment_best_effort (remote : RemoteAPI)
    (parse : String → Except String Int) (now : Int) (api : EveOnlineAPI)
    (kms : List KillSummary) (losses : List KillDetail) (mr : KillDetail)
    (t stid : Int)
    (h1 : remote.recent_killmails api.character_id = .ok kms)
    (h2 : filter_character_losses remote api kms = .ok losses)
    (h3 : losses.isEmpty = false)
    (h4 : find_most_recent_loss parse losses = .ok (some mr))
    (h5 : parse mr.killmail_time = .ok t)
    (h6 : mr.victim.ship_type_id = some stid) :
    (∀ info, remote.ship_info stid = .ok info →
      get_time_since_last_ship_loss remote parse now api =
        format_time_difference (timedelta.ofSeconds (now - t))
          ++ "\nLost ship: " ++ info.name) ∧
    (∀ e, remote.ship_info stid = .error e →
      get_time_since_last_ship_loss remote parse now api =
        format_time_difference (timedelta.ofSeconds (now - t))) := by
  constructor
  · intro info hship
    simp only [get_time_since_last_ship_loss, report_pipeline, get_recent_killmails,
      get_ship_info, h1, h2, h3, h4, h5, h6, hship, Bool.false_eq_true, if_false,
      String.append_assoc]
  · intro e hship
    simp only [get_time_since_last_ship_loss, report_pipeline, get_recent_killmails,
      get_ship_info, h1, h2, h3, h4, h5, h6, hship, Bool.false_eq_true, if_false]

/-- C5 witness: the theorem applied to the demonstration environment, five
seconds after the demonstration loss, with the ship-info fetch returning
the name Rifter. -/
theorem ship_name_enrichment_best_effort_witness :
    get_time_since_last_ship_loss demoRemote demoParse 1672920005 demoApi =
      "Time since last ship loss: 5 seconds\nLost ship: Rifter" := by
  have h := (ship_name_enrichment_best_effort demoRemote demoParse 1672920005 demoApi
    [⟨123, "abc123"⟩, ⟨456, "def456"⟩] [demoLossDetail] demoLossDetail
    1672920000 456 rfl rfl rfl rfl rfl rfl).1 ⟨"Rifter"⟩ rfl
  exact h.trans (by decide)

/-- C6: whenever the filtering step yields no losses the report is exactly
the no-losses string, whatever the parser, the clock and the ship-info
endpoint do. -/
theorem no_losses_report (remote : RemoteAPI) (parse : String → Except String Int)
    (now : Int) (api : EveOnlineAPI) (kms : List KillSummary)
    (h1 : remote.recent_killmails api.character_id = .ok kms)
    (h2 : filter_character_losses remote api kms = .ok []) :
    get_time_since_last_ship_loss remote parse now api =
      "No ship losses found for this character." := by
  simp only [get_time_since_last_ship_loss, report_pipeline, get_recent_killmails,
    h1, h2, List.isEmpty_nil, if_true]

/-- C6 witness: the theorem applied to character 99999, who is the victim
of neither demonstration killmail. -/
theorem no_losses_report_witness :
    get_time_since_last_ship_loss demoRemote demoParse 0 demoApiOther =
      "No ship losses found for this character." :=
  no_losses_report demoRemote demoParse 0 demoApiOther
    [⟨123, "abc123"⟩, ⟨456, "def456"⟩] rfl rfl

/-- The character list of an appended string is the appended character
lists. -/
theorem toList_append (a b : String) : (a ++ b).toList = a.toList ++ b.toList :=
  String.data_append a b

/-- Facts about the character of a decimal digit: it is a digit, its value
round-trips, and it is neither whitespace, an underscore nor a sign. -/
theorem digitChar_facts {d : Nat} (hd : d < 10) :
    (digitChar d).isDigit = true ∧ digitVal (digitChar d) = d ∧
    isPySpace (digitChar d) = false ∧ ((digitChar d) == '_') = false ∧
    ((digitChar d) == '-') = false ∧ ((digitChar d) == '+') = false := by
  interval_cases d <;> exact ⟨rfl, rfl, rfl, rfl, rfl, rfl⟩

/-- dropWhile is the identity on a list no element of which satisfies the
predicate. -/
theorem dropWhile_eq_self_of_forall {p : Char → Bool} {cs : List Char}
    (h : ∀ c ∈ cs, p c = false) : cs.dropWhile p = cs := by
  cases cs with
  | nil => rfl
  | cons c cs' =>
    exact List.dropWhile_cons_of_neg (by simp [h c (by simp)])

/-- Stripping whitespace is the identity on a list of non-space
characters. -/
theorem stripSpaces_eq_self {cs : List Char} (h : ∀ c ∈ cs, isPySpace c = false) :
    stripSpaces cs = cs := by
  unfold stripSpaces
  rw [dropWhile_eq_self_of_forall h,
    dropWhile_eq_self_of_forall (fun c hc => h c (List.mem_reverse.mp hc)),
    List.reverse_reverse]

/-- Unfolding equation of the digit-run scanner on a non-underscore digit
head. -/
theorem parseDigitsRest_cons_digit {c : Char} (hund : (c == '_') = false)
    (hdig : c.isDigit = true) (acc : Nat) (cs : List Char) :
    parseDigitsRest acc (c :: cs) = parseDigitsRest (10 * acc + digitVal c) cs := by
  rw [parseDigitsRest.eq_def]
  simp only [hund, Bool.false_eq_true, if_false, hdig, if_true]

/-- On a list of digit characters the digit-run scanner succeeds and folds
the digit values onto the accumulator. -/
theorem parseDigitsRest_on_digits :
    ∀ (ds : List Nat), (∀ d ∈ ds, d < 10) → ∀ acc : Nat,
    parseDigitsRest acc (ds.map digitChar) =
      some (ds.foldl (fun a d => 10 * a + d) acc) := by
  intro ds
  induction ds with
  | nil => intro _ acc; rfl
  | cons d ds ih =>
    intro h acc
    obtain ⟨hdig, hval, -, hund, -, -⟩ := digitChar_facts (h d (by simp))
    rw [List.map_cons, parseDigitsRest_cons_digit hund hdig, hval, List.foldl_cons]
    exact ih (fun x hx => h x (by simp [hx])) (10 * acc + d)

/-- Folding base-10 accumulation over a reversed digit list computes the
number the digit list denotes. -/
theorem foldl_reverse_digits (L : List Nat) :
    ∀ acc : Nat, L.reverse.foldl (fun a d => 10 * a + d) acc =
      acc * 10 ^ L.length + Nat.ofDigits 10 L := by
  induction L with
  | nil => intro acc; simp [Nat.ofDigits_nil]
  | cons d L ih =>
    intro acc
    rw [List.reverse_cons, List.foldl_append]
    simp only [List.foldl_cons, List.foldl_nil]
    rw [ih acc, Nat.ofDigits_cons]
    simp only [List.length_cons, Nat.cast_id]
    ring

/-- The character list of the canonical decimal string of a nonzero
natural number is its digit expansion, most significant first. -/
theorem natDecimal_toList {m : Nat} (hm : m ≠ 0) :
    (natDecimal m).toList = (Nat.digits 10 m).reverse.map digitChar := by
  unfold natDecimal
  rw [if_neg hm]
  rfl

/-- Every character of a canonical decimal string is a digit character, so
it is neither whitespace nor a sign. -/
theorem natDecimal_chars {m : Nat} :
    ∀ c ∈ (natDecimal m).toList,
      isPySpace c = false ∧ (c == '-') = false ∧ (c == '+') = false := by
  by_cases hm : m = 0
  · subst hm
    intro c hc
    rw [show (natDecimal 0).toList = ['0'] from rfl] at hc
    have : c = '0' := by simpa using hc
    subst this
    exact ⟨rfl, rfl, rfl⟩
  · rw [natDecimal_toList hm]
    intro c hc
    obtain ⟨d, hd, rfl⟩ := List.mem_map.mp hc
    have hd10 : d < 10 :=
      Nat.digits_lt_base (by norm_num) (List.mem_reverse.mp hd)
    obtain ⟨-, -, hsp, -, hminus, hplus⟩ := digitChar_facts hd10
    exact ⟨hsp, hminus, hplus⟩

/-- The digit-run scanner inverts the canonical decimal emitter. -/
theorem parseDigitpart_natDecimal (m : Nat) :
    parseDigitpart (natDecimal m).toList = some m := by
  by_cases hm : m = 0
  · subst hm; rfl
  · have hne : (Nat.digits 10 m).reverse ≠ [] := by
      simp [List.reverse_eq_nil_iff, Nat.digits_ne_nil_iff_ne_zero, hm]
    obtain ⟨d₀, ds, hR⟩ := List.exists_cons_of_ne_nil hne
    have hmem : ∀ d ∈ d₀ :: ds, d < 10 := by
      rw [← hR]
      intro d hd
      exact Nat.digits_lt_base (by norm_num) (List.mem_reverse.mp hd)
    rw [natDecimal_toList hm, hR, List.map_cons]
    obtain ⟨hdig, hval, -, -, -, -⟩ := digitChar_facts (hmem d₀ (by simp))
    simp only [parseDigitpart, hdig, hval, if_true]
    rw [parseDigitsRest_on_digits ds (fun x hx => hmem x (by simp [hx]))]
    congr 1
    calc ds.foldl (fun a d => 10 * a + d) d₀
        = (d₀ :: ds).foldl (fun a d => 10 * a + d) 0 := by simp
      _ = (Nat.digits 10 m).reverse.foldl (fun a d => 10 * a + d) 0 := by rw [hR]
      _ = 0 * 10 ^ (Nat.digits 10 m).length + Nat.ofDigits 10 (Nat.digits 10 m) :=
          foldl_reverse_digits _ 0
      _ = m := by simp [Nat.ofDigits_digits]

/-- Characterisation of the int() model once the stripped input is split
into its head character and tail. -/
theorem python_int_of_string_eq (s : String) (c : Char) (rest : List Char)
    (hs : stripSpaces s.toList = c :: rest) :
    python_int_of_string s =
      (match parseDigitpart (if c == '-' || c == '+' then rest else c :: rest) with
       | some m => Except.ok (if c == '-' then -(m : Int) else (m : Int))
       | none => Except.error ("invalid literal for int() with base 10: " ++ s)) := by
  unfold python_int_of_string
  rw [hs]

/-- The int() model inverts the canonical decimal emitter on every
integer. -/
theorem python_int_of_string_intDecimal (n : Int) :
    python_int_of_string (intDecimal n) = .ok n := by
  rcases lt_trichotomy n 0 with hn | hn | hn
  · have hs : stripSpaces ("-" ++ natDecimal n.natAbs).toList =
        '-' :: (natDecimal n.natAbs).toList := by
      rw [toList_append, show ("-" : String).toList = ['-'] from rfl,
        List.singleton_append]
      refine stripSpaces_eq_self ?_
      intro c hc
      rcases List.mem_cons.mp hc with h | h
      · subst h; rfl
      · exact (natDecimal_chars c h).1
    rw [show intDecimal n = "-" ++ natDecimal n.natAbs from by
      unfold intDecimal; rw [if_pos hn]]
    rw [python_int_of_string_eq _ _ _ hs]
    simp only [beq_self_eq_true, Bool.true_or, if_true, parseDigitpart_natDecimal]
    congr 1
    omega
  · subst hn; rfl
  · have hm : n.natAbs ≠ 0 := by omega
    have hs : stripSpaces (natDecimal n.natAbs).toList = (natDecimal n.natAbs).toList :=
      stripSpaces_eq_self (fun c hc => (natDecimal_chars c hc).1)
    have hne : (natDecimal n.natAbs).toList ≠ [] := by
      rw [natDecimal_toList hm]
      simp [Nat.digits_ne_nil_iff_ne_zero, hm]
    obtain ⟨c, rest, hcr⟩ := List.exists_cons_of_ne_nil hne
    have hcmem : c ∈ (natDecimal n.natAbs).toList := by rw [hcr]; simp
    obtain ⟨-, hminus, hplus⟩ := natDecimal_chars c hcmem
    rw [show intDecimal n = natDecimal n.natAbs from by
      unfold intDecimal; rw [if_neg (by omega)]]
    rw [python_int_of_string_eq _ c rest (by rw [hs, hcr])]
    rw [hminus, hplus]
    simp only [Bool.or_self, Bool.false_eq_true, if_false]
    rw [← hcr]
    simp only [parseDigitpart_natDecimal]
    congr 1
    omega

/-- C7: constructing the client with the canonical decimal string of an
integer character id yields exactly the state constructed from the integer
itself, with the character id stored as that integer; filtering therefore
behaves identically for both constructions. -/
theorem character_id_normalization (tok : String) (n : Int) :
    EveOnlineAPI.init tok (.str (intDecimal n)) = EveOnlineAPI.init tok (.int n) ∧
    EveOnlineAPI.init tok (.int n) =
      .ok { access_token := tok
            character_id := n
            headers := [("Authorization", "Bearer " ++ tok),
                        ("Content-Type", "application/json")] } := by
  constructor
  · simp only [EveOnlineAPI.init, python_int, python_int_of_string_intDecimal]
  · rfl

/-- With exactly three argv entries the entry point builds the client from
the two arguments: a ValueError from int() escapes uncaught, otherwise the
report for the parsed character id is printed. -/
theorem main_entry_three_args (remote : RemoteAPI) (parse : String → Except String Int)
    (now : Int) (prog tok cid : String) :
    main_entry remote parse now [prog, tok, cid] =
      (match python_int_of_string cid with
       | .error e => MainResult.uncaught e
       | .ok n => .report (get_time_since_last_ship_loss remote parse now
           { access_token := tok
             character_id := n
             headers := [("Authorization", "Bearer " ++ tok),
                         ("Content-Type", "application/json")] })) := by
  unfold main_entry
  rw [if_neg (by simp)]
  rcases hpc : python_int_of_string cid with e | n <;>
    simp [EveOnlineAPI.init, python_int, hpc]

/-- C8 counterexample: an argv with exactly two positional arguments whose
character id does not parse as an integer makes the entry point crash with
an uncaught ValueError instead of printing a report, refuting the claim
that exactly two arguments always produce a report on standard output. -/
theorem main_two_args_not_always_report :
    (["eve_last_loss.py", "token", "abc"] : List String).length = 3 ∧
    (main_entry demoRemote demoParse 0 ["eve_last_loss.py", "token", "abc"]).isReport
      = false :=
  ⟨rfl, rfl⟩

/-- C8 amended: the entry point requires exactly two positional arguments;
any other arity prints the usage line and exits with status one, and with
exactly two arguments it prints a single report to standard output
provided the character id parses as a decimal integer, while a character
id that int() rejects escapes as an uncaught error with no report. -/
theorem main_arity_and_report (remote : RemoteAPI) (parse : String → Except String Int)
    (now : Int) (prog tok cid : String) :
    (∀ argv : List String, argv.length ≠ 3 →
      main_entry remote parse now argv =
        .usage "Usage: python eve_last_loss.py <access_token> <character_id>" 1) ∧
    (∀ n : Int, python_int_of_string cid = .ok n →
      main_entry remote parse now [prog, tok, cid] =
        .report (get_time_since_last_ship_loss remote parse now
          { access_token := tok
            character_id := n
            headers := [("Authorization", "Bearer " ++ tok),
                        ("Content-Type", "application/json")] })) ∧
    (∀ e, python_int_of_string cid = .error e →
      main_entry remote parse now [prog, tok, cid] = .uncaught e) := by
  refine ⟨?_, ?_, ?_⟩
  · intro argv h
    unfold main_entry
    rw [if_pos h]
  · intro n h
    rw [main_entry_three_args, h]
  · intro e h
    rw [main_entry_three_args, h]

/-- C8 witness: the amended theorem applied to a one-entry argv and to the
demonstration environment with the character id string 12345. -/
theorem main_arity_and_report_witness :
    main_entry demoRemote demoParse 0 ["eve_last_loss.py"] =
      .usage "Usage: python eve_last_loss.py <access_token> <character_id>" 1 ∧
    main_entry demoRemote demoParse 1672920005 ["eve_last_loss.py", "tok", "12345"] =
      .report "Time since last ship loss: 5 seconds\nLost ship: Rifter" := by
  constructor
  · exact (main_arity_and_report demoRemote demoParse 0 "p" "t" "c").1
      ["eve_last_loss.py"] (by decide)
  · have h := (main_arity_and_report demoRemote demoParse 1672920005
      "eve_last_loss.py" "tok" "12345").2.1 12345 (by rfl)
    exact h.trans (by decide)

/-- C10: a character id string that int() rejects makes the constructor
raise; the entry point then terminates with that uncaught error before the
report pipeline and its top-level handler run, so the failure is never
converted into the unexpected-error report string. -/
theorem invalid_character_id_uncaught (remote : RemoteAPI)
    (parse : String → Except String Int) (now : Int) (prog tok s e : String)
    (h : python_int_of_string s = .error e) :
    EveOnlineAPI.init tok (.str s) = .error e ∧
    main_entry remote parse now [prog, tok, s] = .uncaught e ∧
    (main_entry remote parse now [prog, tok, s]).isReport = false := by
  have hinit : EveOnlineAPI.init tok (.str s) = .error e := by
    simp only [EveOnlineAPI.init, python_int, h]
  have hmain : main_entry remote parse now [prog, tok, s] = .uncaught e := by
    rw [main_entry_three_args, h]
  exact ⟨hinit, hmain, by rw [hmain]; rfl⟩

/-- C10 witness: the theorem applied to the character id string abc, which
int() rejects. -/
theorem invalid_character_id_uncaught_witness :
    EveOnlineAPI.init "tok" (.str "abc") =
      .error "invalid literal for int() with base 10: abc" ∧
    main_entry demoRemote demoParse 0 ["eve_last_loss.py", "tok", "abc"] =
      .uncaught "invalid literal for int() with base 10: abc" := by
  have h := invalid_character_id_uncaught demoRemote demoParse 0
    "eve_last_loss.py" "tok" "abc" "invalid literal for int() with base 10: abc" rfl
  exact ⟨h.1, h.2.1⟩
